import Mathlib

/-!
Shallow embedding of `src/api/xsol-metrics.py` (Hylo xSOL metrics endpoint).

The module is a single HTTP GET handler.  It tries a primary JSON API
(`fetch_hylo_api` via `fetch_with_retry`), computes derived metrics, and on
any exception falls back to `fetch_blockchain_fallback` (on-chain supply via
a list of RPC endpoints plus two Jupiter price lookups).  A failure of the
fallback surfaces as an HTTP 500 with a fixed error body.

External network services are modelled by a `World` record giving the outcome
of every outbound request the handler can make.  Python values reachable in
this pipeline (decoded JSON) are modelled by `JValue` (null, numbers as `ℚ`,
and string-keyed objects); Python exceptions by `PyExc`; fallible Python
expressions by `Except PyExc _`.
-/

/-- Decoded JSON values as Python objects: `None`, numbers (modelled as `ℚ`),
and dicts with string keys.  These cover every value the handler inspects. -/
inductive JValue : Type
  | null : JValue
  | num (q : ℚ) : JValue
  | obj (fields : List (String × JValue)) : JValue
deriving Repr

/-- Python exceptions that the embedded pipeline can raise. -/
inductive PyExc : Type
  | httpError (code : Nat) (msg : String)
  | keyError (k : String)
  | typeError (msg : String)
  | attributeError (msg : String)
  | zeroDiv
  | exception (msg : String)
deriving Repr, DecidableEq

/-- Python `str(e)` on an exception, as used when serializing the 500 body.
`str` of a `KeyError` is the `repr` of the missing key (quoted). -/
def PyExc.toStr : PyExc → String
  | .httpError _ m => m
  | .keyError k => String.singleton (Char.ofNat 39) ++ k ++ String.singleton (Char.ofNat 39)
  | .typeError m => m
  | .attributeError m => m
  | .zeroDiv => "division by zero"
  | .exception m => m

/-- Python truthiness test (`not x`) on the modelled values: `None`, `0`, and
the empty dict are falsy. -/
def JValue.falsy : JValue → Bool
  | .null => true
  | .num q => q = 0
  | .obj fs => fs.isEmpty

/-- Python subscription `d[k]`: `KeyError` on a missing key, `TypeError`
when the value is not a dict. -/
def pyIndex : JValue → String → Except PyExc JValue
  | .obj fs, k =>
    match fs.lookup k with
    | some v => .ok v
    | none => .error (.keyError k)
  | .null, _ => .error (.typeError "NoneType object is not subscriptable")
  | .num _, _ => .error (.typeError "float object is not subscriptable")

/-- Python `d.get(k, default)`: `AttributeError` when the value is not a dict. -/
def pyGet : JValue → String → JValue → Except PyExc JValue
  | .obj fs, k, d => .ok ((fs.lookup k).getD d)
  | .null, _, _ => .error (.attributeError "NoneType object has no attribute get")
  | .num _, _, _ => .error (.attributeError "float object has no attribute get")

/-- Python `a + b` on the modelled values: defined on numbers, `TypeError`
otherwise. -/
def pyAdd : JValue → JValue → Except PyExc JValue
  | .num a, .num b => .ok (.num (a + b))
  | _, _ => .error (.typeError "unsupported operand types for +")

/-- Python `a * b` on the modelled values. -/
def pyMul : JValue → JValue → Except PyExc JValue
  | .num a, .num b => .ok (.num (a * b))
  | _, _ => .error (.typeError "unsupported operand types for *")

/-- Python `a / b` on the modelled values: `ZeroDivisionError` on a zero
denominator. -/
def pyDiv : JValue → JValue → Except PyExc JValue
  | .num a, .num b => if b = 0 then .error .zeroDiv else .ok (.num (a / b))
  | _, _ => .error (.typeError "unsupported operand types for /")

/-- Python `float(x)` on the modelled values, as an `Option`: `TypeError` on
`None` or a dict is collapsed to `none` because the caller
(`fetch_token_supply`) catches every exception. -/
def pyFloat : JValue → Option ℚ
  | .num q => some q
  | _ => none

/-- Constants from the top of the module. -/
def HYLO_API : String := "https://api.hylo.so/stats"

def JUPITER_PRICE_API : String := "https://lite-api.jup.ag/price/v3"

def SOL_MINT : String := "So11111111111111111111111111111111111111112"

def USDC_MINT : String := "EPjFWdd5AufqSSqeM2qN1xzybapC8G4wEGGkZwyTDt1v"

def XSOL_MINT : String := "4sWNB8zGWHkh6UnmwiEtzNxL4XrN7uK9tosbESbJFfVs"

def SOLANA_RPC_ENDPOINTS : List String :=
  ["https://api.mainnet-beta.solana.com", "https://rpc.ankr.com/solana"]

/-- Outcome of one attempt of `urllib.request.urlopen` + `json.loads` inside
`fetch_with_retry`: a decoded 2xx JSON body, an `urllib.error.HTTPError` with
a status code, or any other exception (network error, timeout, decode
failure). -/
inductive AttemptOutcome : Type
  | success (v : JValue)
  | httpError (code : Nat) (msg : String)
  | otherError (msg : String)

/-- Result of `fetch_with_retry`: a returned JSON value, a raised exception,
or the `return None` after the loop. -/
inductive FetchResult : Type
  | ok (v : JValue)
  | raised (e : PyExc)
  | noneReturn
deriving Repr

/-- Observable trace of one `fetch_with_retry` call: its result, the
sequence of `time.sleep` durations (seconds), and how many attempts ran. -/
structure FetchTrace : Type where
  result : FetchResult
  waits : List ℚ
  attempts : Nat
deriving Repr

/-- The loop body of `fetch_with_retry`, iterating over the remaining
attempt indices of `range(max_retries)`.  A 429 `HTTPError` before the last
attempt sleeps `2 ** attempt + random.uniform(0, 1)` and continues; any
other `HTTPError` re-raises at once; any other exception before the last
attempt sleeps 1 second and continues; the last attempt re-raises. -/
def retryLoop (env : Nat → AttemptOutcome) (jitter : Nat → ℚ) (maxRetries : Nat) :
    List Nat → FetchTrace
  | [] => ⟨.noneReturn, [], 0⟩
  | attempt :: rest =>
    match env attempt with
    | .success v => ⟨.ok v, [], 1⟩
    | .httpError code msg =>
      if code = 429 ∧ attempt < maxRetries - 1 then
        let t := retryLoop env jitter maxRetries rest
        ⟨t.result, ((2 : ℚ) ^ attempt + jitter attempt) :: t.waits, t.attempts + 1⟩
      else ⟨.raised (.httpError code msg), [], 1⟩
    | .otherError msg =>
      if attempt < maxRetries - 1 then
        let t := retryLoop env jitter maxRetries rest
        ⟨t.result, (1 : ℚ) :: t.waits, t.attempts + 1⟩
      else ⟨.raised (.exception msg), [], 1⟩

/-- `fetch_with_retry(url, headers, max_retries)`.  The URL and headers only
select which external service answers, so they are abstracted into `env`
(outcome of each attempt); `jitter` gives the value of
`random.uniform(0, 1)` drawn on each 429 backoff. -/
def fetch_with_retry (env : Nat → AttemptOutcome) (jitter : Nat → ℚ)
    (maxRetries : Nat := 3) : FetchTrace :=
  retryLoop env jitter maxRetries (List.range maxRetries)

/-- A `fetch_with_retry` call as seen by its caller: the returned value or
the raised exception.  The `return None` after the loop returns Python
`None`. -/
def FetchResult.toExcept : FetchResult → Except PyExc JValue
  | .ok v => .ok v
  | .raised e => .error e
  | .noneReturn => .ok .null

/-- Value-level view of a `fetch_with_retry` call (sleeps do not affect
values, so the jitter is irrelevant here). -/
def fetchValue (env : Nat → AttemptOutcome) : Except PyExc JValue :=
  (fetch_with_retry env (fun _ => 0)).result.toExcept

/-- The external world of one inbound request: outcomes of every outbound
request the handler can make.  `solPrice` is indexed by call number because
the SOL price is fetched once on the primary path and, if the handler falls
back, once more on the fallback path. -/
structure World : Type where
  hylo : Nat → AttemptOutcome
  solPrice : Nat → Nat → AttemptOutcome
  xsolPrice : Nat → AttemptOutcome
  rpc : String → Option JValue
  now : String

/-- `fetch_sol_price()`: fetch the Jupiter price document and read
`data.get(SOL_MINT, {}).get('usdPrice', 0)`. -/
def fetch_sol_price (env : Nat → AttemptOutcome) : Except PyExc JValue := do
  let data ← fetchValue env
  let entry ← pyGet data SOL_MINT (.obj [])
  pyGet entry "usdPrice" (.num 0)

/-- `fetch_xsol_price()`: fetch the Jupiter price document and read
`data.get(XSOL_MINT, {}).get('usdPrice', 0)`. -/
def fetch_xsol_price (env : Nat → AttemptOutcome) : Except PyExc JValue := do
  let data ← fetchValue env
  let entry ← pyGet data XSOL_MINT (.obj [])
  pyGet entry "usdPrice" (.num 0)

/-- `fetch_hylo_api()`: `fetch_with_retry(HYLO_API, headers)` with the
browser-spoofing headers (headers only select the service; abstracted). -/
def fetch_hylo_api (w : World) : Except PyExc JValue :=
  fetchValue w.hylo

/-- Extraction of `float(data['result']['value']['uiAmount'])` from one RPC
response; every exception is caught by the surrounding `except`, so the
failure modes collapse to `none`. -/
def supplyFromResponse (data : JValue) : Option ℚ :=
  match pyIndex data "result" with
  | .error _ => none
  | .ok r =>
    match pyIndex r "value" with
    | .error _ => none
    | .ok v =>
      match pyIndex v "uiAmount" with
      | .error _ => none
      | .ok u => pyFloat u

/-- The endpoint-cycling loop of `fetch_token_supply`: try each RPC endpoint
in order, first usable numeric value wins; `None` when all fail. -/
def tokenSupplyLoop (w : World) : List String → Option ℚ
  | [] => none
  | rpc :: rest =>
    match w.rpc rpc with
    | none => tokenSupplyLoop w rest
    | some data =>
      match supplyFromResponse data with
      | some q => some q
      | none => tokenSupplyLoop w rest

/-- `fetch_token_supply(XSOL_MINT)` over `SOLANA_RPC_ENDPOINTS`. -/
def fetch_token_supply (w : World) : Option ℚ :=
  tokenSupplyLoop w SOLANA_RPC_ENDPOINTS

/-- The metrics dict assembled by either path.  String-valued bookkeeping
fields are native; data fields keep their (unvalidated) `JValue`s.  `note`
is `none` when the dict has no `note` key. -/
structure MetricsRecord : Type where
  HYusd_supply : JValue
  xSOL_price : JValue
  xSOL_supply : JValue
  CollateralRatio : JValue
  SOL_price : JValue
  StabilityMode : JValue
  Collateral_TVL : JValue
  Collateral_TVL_SOL : JValue
  Effective_Leverage : JValue
  xSOL_icon_url : JValue
  lastFetched : String
  source : String
  note : Option String
deriving Repr

/-- `fetch_blockchain_fallback()`: on-chain xSOL supply (falsy supply is a
failure), two Jupiter prices (either falsy is a failure), a fixed
approximate HYusd supply of 18000000, then the three derived metrics. -/
def fetch_blockchain_fallback (w : World) : Except PyExc MetricsRecord :=
  match fetch_token_supply w with
  | none => .error (.exception "Failed to fetch xSOL supply from blockchain")
  | some xSOL_supply =>
  if xSOL_supply = 0 then .error (.exception "Failed to fetch xSOL supply from blockchain")
  else
  match fetch_sol_price (w.solPrice 1) with
  | .error e => .error e
  | .ok SOL_price =>
  match fetch_xsol_price w.xsolPrice with
  | .error e => .error e
  | .ok xSOL_price =>
  if SOL_price.falsy || xSOL_price.falsy then
    .error (.exception "Failed to fetch prices from Jupiter")
  else
  match pyMul xSOL_price (.num xSOL_supply) with
  | .error e => .error e
  | .ok leverValue =>
  match pyAdd (.num 18000000) leverValue with
  | .error e => .error e
  | .ok Collateral_TVL =>
  match pyDiv Collateral_TVL SOL_price with
  | .error e => .error e
  | .ok Collateral_TVL_SOL =>
  match pyDiv Collateral_TVL leverValue with
  | .error e => .error e
  | .ok Effective_Leverage =>
  .ok { HYusd_supply := .num 18000000
        xSOL_price := xSOL_price
        xSOL_supply := .num xSOL_supply
        CollateralRatio := .null
        SOL_price := SOL_price
        StabilityMode := .obj []
        Collateral_TVL := Collateral_TVL
        Collateral_TVL_SOL := Collateral_TVL_SOL
        Effective_Leverage := Effective_Leverage
        xSOL_icon_url := .null
        lastFetched := w.now ++ "Z"
        source := "blockchain-fallback"
        note := some "CollateralRatio unavailable - using blockchain approximation" }

/-- The body of the inner `try` of `handler.do_GET`: the primary path.
Fetch the Hylo stats, extract the `exchangeStats` fields, fetch the SOL
price, compute the derived metrics, assemble the record. -/
def primaryMetrics (w : World) : Except PyExc MetricsRecord :=
  match fetch_hylo_api w with
  | .error e => .error e
  | .ok hylo_data =>
  match pyIndex hylo_data "exchangeStats" with
  | .error e => .error e
  | .ok stats =>
  match pyIndex stats "stablecoinSupply" with
  | .error e => .error e
  | .ok HYusd_supply =>
  match pyIndex stats "levercoinNav" with
  | .error e => .error e
  | .ok xSOL_price =>
  match pyIndex stats "levercoinSupply" with
  | .error e => .error e
  | .ok xSOL_supply =>
  match pyIndex stats "collateralRatio" with
  | .error e => .error e
  | .ok CollateralRatio =>
  match pyGet stats "stabilityMode" (.obj []) with
  | .error e => .error e
  | .ok StabilityMode =>
  match fetch_sol_price (w.solPrice 0) with
  | .error e => .error e
  | .ok SOL_price =>
  match pyMul xSOL_price xSOL_supply with
  | .error e => .error e
  | .ok leverValue =>
  match pyAdd HYusd_supply leverValue with
  | .error e => .error e
  | .ok Collateral_TVL =>
  match pyDiv Collateral_TVL SOL_price with
  | .error e => .error e
  | .ok Collateral_TVL_SOL =>
  match pyDiv Collateral_TVL leverValue with
  | .error e => .error e
  | .ok Effective_Leverage =>
  .ok { HYusd_supply := HYusd_supply
        xSOL_price := xSOL_price
        xSOL_supply := xSOL_supply
        CollateralRatio := CollateralRatio
        SOL_price := SOL_price
        StabilityMode := StabilityMode
        Collateral_TVL := Collateral_TVL
        Collateral_TVL_SOL := Collateral_TVL_SOL
        Effective_Leverage := Effective_Leverage
        xSOL_icon_url := .null
        lastFetched := w.now ++ "Z"
        source := "hylo-api"
        note := none }

/-- The inner try/except of `do_GET`: any exception on the primary path is
swallowed and the fallback runs; once fallback begins there is no path back
to the primary. -/
def innerMetrics (w : World) : Except PyExc MetricsRecord :=
  match primaryMetrics w with
  | .ok m => .ok m
  | .error _ => fetch_blockchain_fallback w

/-- The JSON body of the error branch of `do_GET`. -/
structure ErrorBody : Type where
  error : String
  message : String
  suggestion : String
deriving Repr, DecidableEq

/-- A serialized HTTP response body: a metrics record or the error object. -/
inductive RespBody : Type
  | metrics (m : MetricsRecord)
  | err (e : ErrorBody)
deriving Repr

/-- The HTTP response sent by `do_GET`: status, headers in emission order,
body. -/
structure HttpResponse : Type where
  status : Nat
  headers : List (String × String)
  body : RespBody
deriving Repr

/-- Headers of the 200 branch of `do_GET`. -/
def headers200 : List (String × String) :=
  [("Content-type", "application/json"),
   ("Access-Control-Allow-Origin", "*"),
   ("Cache-Control", "public, max-age=60")]

/-- Headers of the 500 branch of `do_GET`. -/
def headers500 : List (String × String) :=
  [("Content-type", "application/json"),
   ("Access-Control-Allow-Origin", "*")]

/-- The 500 response of the outer `except` of `do_GET`. -/
def errorResponse (e : PyExc) : HttpResponse :=
  ⟨500, headers500,
   .err ⟨e.toStr, "Failed to fetch xSOL metrics",
         "Try again later or use cached Gist data"⟩⟩

/-- `handler.do_GET`: primary path, fallback on any primary exception, 200
with the metrics JSON on success, 500 with the fixed error body when the
fallback also raises. -/
def do_GET (w : World) : HttpResponse :=
  match innerMetrics w with
  | .ok m => ⟨200, headers200, .metrics m⟩
  | .error e => errorResponse e

/-! Concrete service outcomes used to exercise the pipeline.  The numbers
follow the worked scenarios of the repository's own documentation: stable
supply 18000000, lever NAV 1.5, lever supply 1000000, ratio 1.2, SOL at
150. -/

/-- A well-formed `exchangeStats` object from the primary API. -/
def statsOk : JValue :=
  .obj [("stablecoinSupply", .num 18000000), ("levercoinNav", .num (3/2)),
        ("levercoinSupply", .num 1000000), ("collateralRatio", .num (6/5))]

/-- A well-formed primary API document. -/
def hyloOk : JValue := .obj [("exchangeStats", statsOk)]

/-- A Jupiter price document quoting SOL at 150. -/
def solPriceDoc : JValue := .obj [(SOL_MINT, .obj [("usdPrice", .num 150)])]

/-- A Jupiter price document quoting xSOL at 1.5. -/
def xsolPriceDoc : JValue := .obj [(XSOL_MINT, .obj [("usdPrice", .num (3/2))])]

/-- An RPC `getTokenSupply` response with `uiAmount` 1000000. -/
def rpcDoc : JValue :=
  .obj [("result", .obj [("value", .obj [("uiAmount", .num 1000000)])])]

/-- An RPC `getTokenSupply` response with `uiAmount` exactly 0. -/
def rpcZeroDoc : JValue :=
  .obj [("result", .obj [("value", .obj [("uiAmount", .num 0)])])]

/-- A world where every service answers correctly on the first attempt. -/
def wPrimary : World :=
  ⟨fun _ => .success hyloOk, fun _ _ => .success solPriceDoc,
   fun _ => .success xsolPriceDoc, fun _ => none, "2025-01-01T00:00:00"⟩

/-- A world where the primary API times out on every attempt but the
fallback services all answer. -/
def wFallback : World :=
  ⟨fun _ => .otherError "timed out", fun _ _ => .success solPriceDoc,
   fun _ => .success xsolPriceDoc, fun _ => some rpcDoc, "2025-01-01T00:00:00"⟩

/-- A world where the primary API times out and every RPC endpoint fails. -/
def wAllFail : World :=
  ⟨fun _ => .otherError "timed out", fun _ _ => .success solPriceDoc,
   fun _ => .success xsolPriceDoc, fun _ => none, "2025-01-01T00:00:00"⟩

/-- An `exchangeStats` object whose `collateralRatio` field is JSON null. -/
def statsNullRatio : JValue :=
  .obj [("stablecoinSupply", .num 18000000), ("levercoinNav", .num (3/2)),
        ("levercoinSupply", .num 1000000), ("collateralRatio", .null)]

/-- A world where the primary API answers but reports a null ratio. -/
def wNullRatio : World :=
  ⟨fun _ => .success (.obj [("exchangeStats", statsNullRatio)]),
   fun _ _ => .success solPriceDoc,
   fun _ => .success xsolPriceDoc, fun _ => none, "2025-01-01T00:00:00"⟩

/-- A world where the primary API times out and the chain reports an xSOL
supply of exactly 0. -/
def wZeroSupply : World :=
  ⟨fun _ => .otherError "timed out", fun _ _ => .success solPriceDoc,
   fun _ => .success xsolPriceDoc, fun _ => some rpcZeroDoc, "2025-01-01T00:00:00"⟩

/-- The record the primary path produces in `wPrimary`. -/
def mPrimary : MetricsRecord :=
  { HYusd_supply := .num 18000000, xSOL_price := .num (3/2), xSOL_supply := .num 1000000,
    CollateralRatio := .num (6/5), SOL_price := .num 150, StabilityMode := .obj [],
    Collateral_TVL := .num (18000000 + (3/2) * 1000000),
    Collateral_TVL_SOL := .num ((18000000 + (3/2) * 1000000) / 150),
    Effective_Leverage := .num ((18000000 + (3/2) * 1000000) / ((3/2) * 1000000)),
    xSOL_icon_url := .null,
    lastFetched := "2025-01-01T00:00:00Z", source := "hylo-api", note := none }

/-- The record the fallback path produces in `wFallback`. -/
def mFallback : MetricsRecord :=
  { HYusd_supply := .num 18000000, xSOL_price := .num (3/2), xSOL_supply := .num 1000000,
    CollateralRatio := .null, SOL_price := .num 150, StabilityMode := .obj [],
    Collateral_TVL := .num (18000000 + (3/2) * 1000000),
    Collateral_TVL_SOL := .num ((18000000 + (3/2) * 1000000) / 150),
    Effective_Leverage := .num ((18000000 + (3/2) * 1000000) / ((3/2) * 1000000)),
    xSOL_icon_url := .null,
    lastFetched := "2025-01-01T00:00:00Z", source := "blockchain-fallback",
    note := some "CollateralRatio unavailable - using blockchain approximation" }

/-- The record the primary path produces in `wNullRatio`: a 200 record whose
ratio field is null. -/
def mNullRatio : MetricsRecord :=
  { mPrimary with CollateralRatio := .null }

/-! Inversion lemmas for the Python operators, and a full characterization
of the records each path can produce. -/

/-- A successful Python addition forces both operands numeric. -/
theorem pyAdd_ok {a b c : JValue} (h : pyAdd a b = .ok c) :
    ∃ x y : ℚ, a = .num x ∧ b = .num y ∧ c = .num (x + y) := by
  cases a with
  | num x =>
    cases b with
    | num y =>
      refine ⟨x, y, rfl, rfl, ?_⟩
      simpa [pyAdd] using h.symm
    | null => simp [pyAdd] at h
    | obj fs => simp [pyAdd] at h
  | null => cases b <;> simp [pyAdd] at h
  | obj fs => cases b <;> simp [pyAdd] at h

/-- A successful Python multiplication forces both operands numeric. -/
theorem pyMul_ok {a b c : JValue} (h : pyMul a b = .ok c) :
    ∃ x y : ℚ, a = .num x ∧ b = .num y ∧ c = .num (x * y) := by
  cases a with
  | num x =>
    cases b with
    | num y =>
      refine ⟨x, y, rfl, rfl, ?_⟩
      simpa [pyMul] using h.symm
    | null => simp [pyMul] at h
    | obj fs => simp [pyMul] at h
  | null => cases b <;> simp [pyMul] at h
  | obj fs => cases b <;> simp [pyMul] at h

/-- A successful Python division forces numeric operands and a nonzero
denominator. -/
theorem pyDiv_ok {a b c : JValue} (h : pyDiv a b = .ok c) :
    ∃ x y : ℚ, a = .num x ∧ b = .num y ∧ y ≠ 0 ∧ c = .num (x / y) := by
  cases a with
  | num x =>
    cases b with
    | num y =>
      by_cases hy : y = 0
      · simp [pyDiv, hy] at h
      · refine ⟨x, y, rfl, rfl, hy, ?_⟩
        simpa [pyDiv, hy] using h.symm
    | null => simp [pyDiv] at h
    | obj fs => simp [pyDiv] at h
  | null => cases b <;> simp [pyDiv] at h
  | obj fs => cases b <;> simp [pyDiv] at h

/-- Any record the primary path returns is fully determined by the extracted
`exchangeStats` fields and the SOL price: the supply, NAV and price fields
are numeric and the three derived fields carry the formulas of the code. -/
theorem primaryMetrics_ok {w : World} {m : MetricsRecord}
    (h : primaryMetrics w = .ok m) :
    ∃ (hv stats cr sm : JValue) (s p q b : ℚ),
      fetch_hylo_api w = .ok hv ∧
      pyIndex hv "exchangeStats" = .ok stats ∧
      pyIndex stats "stablecoinSupply" = .ok (.num s) ∧
      pyIndex stats "levercoinNav" = .ok (.num p) ∧
      pyIndex stats "levercoinSupply" = .ok (.num q) ∧
      pyIndex stats "collateralRatio" = .ok cr ∧
      pyGet stats "stabilityMode" (.obj []) = .ok sm ∧
      fetch_sol_price (w.solPrice 0) = .ok (.num b) ∧
      p * q ≠ 0 ∧ b ≠ 0 ∧
      m = { HYusd_supply := .num s, xSOL_price := .num p, xSOL_supply := .num q,
            CollateralRatio := cr, SOL_price := .num b, StabilityMode := sm,
            Collateral_TVL := .num (s + p * q),
            Collateral_TVL_SOL := .num ((s + p * q) / b),
            Effective_Leverage := .num ((s + p * q) / (p * q)),
            xSOL_icon_url := .null, lastFetched := w.now ++ "Z",
            source := "hylo-api", note := none } := by
  unfold primaryMetrics at h
  split at h
  · exact Except.noConfusion h
  rename_i hv hHylo
  split at h
  · exact Except.noConfusion h
  rename_i stats hStats
  split at h
  · exact Except.noConfusion h
  rename_i vS hS
  split at h
  · exact Except.noConfusion h
  rename_i vP hP
  split at h
  · exact Except.noConfusion h
  rename_i vQ hQ
  split at h
  · exact Except.noConfusion h
  rename_i cr hCr
  split at h
  · exact Except.noConfusion h
  rename_i sm hSm
  split at h
  · exact Except.noConfusion h
  rename_i sol hSol
  split at h
  · exact Except.noConfusion h
  rename_i lv hMul
  split at h
  · exact Except.noConfusion h
  rename_i tvl hAddE
  split at h
  · exact Except.noConfusion h
  rename_i tvlSol hDiv1
  split at h
  · exact Except.noConfusion h
  rename_i eff hDiv2
  obtain ⟨p, q, rfl, rfl, rfl⟩ := pyMul_ok hMul
  obtain ⟨s, pq, rfl, hpq, rfl⟩ := pyAdd_ok hAddE
  obtain ⟨t1, b, htvl1, rfl, hb, rfl⟩ := pyDiv_ok hDiv1
  obtain ⟨t2, pq2, htvl2, hlv2, hpq2, rfl⟩ := pyDiv_ok hDiv2
  injection h with h
  subst h
  obtain rfl : pq = p * q := by injection hpq with h2; exact h2.symm
  obtain rfl : t1 = s + p * q := by injection htvl1 with h2; exact h2.symm
  obtain rfl : t2 = s + p * q := by injection htvl2 with h2; exact h2.symm
  obtain rfl : pq2 = p * q := by injection hlv2 with h2; exact h2.symm
  exact ⟨hv, stats, cr, sm, s, p, q, b, hHylo, hStats, hS, hP, hQ, hCr, hSm, hSol,
    hpq2, hb, rfl⟩

/-- Any record the fallback path returns carries the constant 18000000 as
stable supply, a null ratio, the fixed note, and the derived formulas. -/
theorem fallback_ok {w : World} {m : MetricsRecord}
    (h : fetch_blockchain_fallback w = .ok m) :
    ∃ (q p b : ℚ),
      fetch_token_supply w = some q ∧ q ≠ 0 ∧
      fetch_sol_price (w.solPrice 1) = .ok (.num b) ∧
      fetch_xsol_price w.xsolPrice = .ok (.num p) ∧
      b ≠ 0 ∧ p * q ≠ 0 ∧
      m = { HYusd_supply := .num 18000000, xSOL_price := .num p, xSOL_supply := .num q,
            CollateralRatio := .null, SOL_price := .num b, StabilityMode := .obj [],
            Collateral_TVL := .num (18000000 + p * q),
            Collateral_TVL_SOL := .num ((18000000 + p * q) / b),
            Effective_Leverage := .num ((18000000 + p * q) / (p * q)),
            xSOL_icon_url := .null, lastFetched := w.now ++ "Z",
            source := "blockchain-fallback",
            note := some "CollateralRatio unavailable - using blockchain approximation" } := by
  unfold fetch_blockchain_fallback at h
  cases hSupply : fetch_token_supply w with
  | none => rw [hSupply] at h; exact Except.noConfusion h
  | some q =>
  rw [hSupply] at h
  dsimp only at h
  by_cases hq0 : q = 0
  · rw [if_pos hq0] at h; exact Except.noConfusion h
  rw [if_neg hq0] at h
  cases hSol : fetch_sol_price (w.solPrice 1) with
  | error e => rw [hSol] at h; exact Except.noConfusion h
  | ok sol =>
  rw [hSol] at h
  dsimp only at h
  cases hXp : fetch_xsol_price w.xsolPrice with
  | error e => rw [hXp] at h; exact Except.noConfusion h
  | ok px =>
  rw [hXp] at h
  dsimp only at h
  by_cases hFalsy : (sol.falsy || px.falsy) = true
  · rw [if_pos hFalsy] at h; exact Except.noConfusion h
  rw [if_neg hFalsy] at h
  cases hMul : pyMul px (.num q) with
  | error e => rw [hMul] at h; exact Except.noConfusion h
  | ok lv =>
  rw [hMul] at h
  dsimp only at h
  cases hAddE : pyAdd (.num 18000000) lv with
  | error e => rw [hAddE] at h; exact Except.noConfusion h
  | ok tvl =>
  rw [hAddE] at h
  dsimp only at h
  cases hDiv1 : pyDiv tvl sol with
  | error e => rw [hDiv1] at h; exact Except.noConfusion h
  | ok tvlSol =>
  rw [hDiv1] at h
  dsimp only at h
  cases hDiv2 : pyDiv tvl lv with
  | error e => rw [hDiv2] at h; exact Except.noConfusion h
  | ok eff =>
  rw [hDiv2] at h
  dsimp only at h
  obtain ⟨p, q2, rfl, hq2, rfl⟩ := pyMul_ok hMul
  obtain rfl : q = q2 := by injection hq2
  obtain ⟨x, pq, hx, hpq, rfl⟩ := pyAdd_ok hAddE
  obtain rfl : x = 18000000 := by injection hx with h2; exact h2.symm
  obtain rfl : pq = p * q := by injection hpq with h2; exact h2.symm
  obtain ⟨t1, b, htvl1, rfl, hb, rfl⟩ := pyDiv_ok hDiv1
  obtain rfl : t1 = 18000000 + p * q := by injection htvl1 with h2; exact h2.symm
  obtain ⟨t2, pq2, htvl2, hlv2, hpq2, rfl⟩ := pyDiv_ok hDiv2
  obtain rfl : t2 = 18000000 + p * q := by injection htvl2 with h2; exact h2.symm
  obtain rfl : pq2 = p * q := by injection hlv2 with h2; exact h2.symm
  injection h with h
  subst h
  exact ⟨q, p, b, rfl, hq0, rfl, rfl, hb, hpq2, rfl⟩

/-- An exhausted or falsy on-chain supply makes the fallback raise its fixed
supply exception. -/
theorem fallback_supply_fail {w : World}
    (h : fetch_token_supply w = none ∨ fetch_token_supply w = some 0) :
    fetch_blockchain_fallback w
      = .error (.exception "Failed to fetch xSOL supply from blockchain") := by
  unfold fetch_blockchain_fallback
  rcases h with h | h
  · rw [h]
  · rw [h]
    simp

/-- If either price lookup only yields falsy values (or raises), the
fallback fails with some exception. -/
theorem fallback_price_fail {w : World} {q : ℚ}
    (hs : fetch_token_supply w = some q) (hq : q ≠ 0)
    (hfail : (∀ p, fetch_sol_price (w.solPrice 1) = .ok p → p.falsy = true)
           ∨ (∀ p, fetch_xsol_price w.xsolPrice = .ok p → p.falsy = true)) :
    ∃ e, fetch_blockchain_fallback w = .error e := by
  unfold fetch_blockchain_fallback
  rw [hs]
  dsimp only
  rw [if_neg hq]
  cases hSol : fetch_sol_price (w.solPrice 1) with
  | error e => exact ⟨e, rfl⟩
  | ok sol =>
  dsimp only
  cases hXp : fetch_xsol_price w.xsolPrice with
  | error e => exact ⟨e, rfl⟩
  | ok px =>
  dsimp only
  refine ⟨.exception "Failed to fetch prices from Jupiter", ?_⟩
  rcases hfail with hf | hf
  · rw [if_pos (by rw [hf sol hSol]; rfl)]
  · rw [if_pos (by rw [hf px hXp]; simp)]

/-- Once the primary path has raised, the handler serves exactly the
fallback result. -/
theorem innerMetrics_of_primary_error {w : World} {e : PyExc}
    (hp : primaryMetrics w = .error e) :
    innerMetrics w = fetch_blockchain_fallback w := by
  unfold innerMetrics
  rw [hp]

/-- A successful inner computation yields the 200 response. -/
theorem do_GET_of_ok {w : World} {m : MetricsRecord}
    (h : innerMetrics w = .ok m) : do_GET w = ⟨200, headers200, .metrics m⟩ := by
  unfold do_GET
  rw [h]

/-- A failed inner computation yields the 500 response. -/
theorem do_GET_of_error {w : World} {e : PyExc}
    (h : innerMetrics w = .error e) : do_GET w = errorResponse e := by
  unfold do_GET
  rw [h]

/-- Invariant of the retry loop over any contiguous attempt window ending at
the retry budget: it never reaches the empty list (the loop exits by return
or raise), a returned value stems from a successful attempt, and a raised
exception stems from some attempt's failure. -/
theorem retryLoop_range'_no_none (env : Nat → AttemptOutcome) (j : Nat → ℚ)
    (maxRetries : Nat) :
    ∀ (k a : Nat), a + k = maxRetries → 1 ≤ k →
      ((retryLoop env j maxRetries (List.range' a k)).result ≠ .noneReturn) ∧
      (∀ v, (retryLoop env j maxRetries (List.range' a k)).result = .ok v →
        ∃ i, a ≤ i ∧ i < maxRetries ∧ env i = .success v) ∧
      (∀ e, (retryLoop env j maxRetries (List.range' a k)).result = .raised e →
        ∃ i, a ≤ i ∧ i < maxRetries ∧
          ((∃ c msg, env i = .httpError c msg ∧ e = .httpError c msg) ∨
           (∃ msg, env i = .otherError msg ∧ e = .exception msg))) := by
  intro k
  induction k with
  | zero => intro a _ hk; exact absurd hk (by omega)
  | succ k ih =>
    intro a ha _
    rw [show List.range' a (k+1) = a :: List.range' (a+1) k from rfl]
    cases hEnv : env a with
    | success v =>
      refine ⟨by simp [retryLoop, hEnv], ?_, ?_⟩
      · intro v2 hv2
        simp only [retryLoop, hEnv] at hv2
        injection hv2 with hv2
        exact ⟨a, le_refl a, by omega, by rw [hEnv, hv2]⟩
      · intro e he
        simp only [retryLoop, hEnv] at he
        exact FetchResult.noConfusion he
    | httpError code msg =>
      by_cases hc : code = 429 ∧ a < maxRetries - 1
      · have hk1 : 1 ≤ k := by omega
        have ha1 : (a + 1) + k = maxRetries := by omega
        obtain ⟨ihn, ihok, ihr⟩ := ih (a + 1) ha1 hk1
        refine ⟨?_, ?_, ?_⟩
        · simpa [retryLoop, hEnv, hc] using ihn
        · intro v hv
          simp only [retryLoop, hEnv, if_pos hc] at hv
          obtain ⟨i, hi1, hi2, hi3⟩ := ihok v hv
          exact ⟨i, by omega, hi2, hi3⟩
        · intro e he
          simp only [retryLoop, hEnv, if_pos hc] at he
          obtain ⟨i, hi1, hi2, hi3⟩ := ihr e he
          exact ⟨i, by omega, hi2, hi3⟩
      · refine ⟨by simp [retryLoop, hEnv, hc], ?_, ?_⟩
        · intro v hv
          simp only [retryLoop, hEnv, if_neg hc] at hv
          exact FetchResult.noConfusion hv
        · intro e he
          simp only [retryLoop, hEnv, if_neg hc] at he
          injection he with he
          exact ⟨a, le_refl a, by omega, Or.inl ⟨code, msg, hEnv, he.symm⟩⟩
    | otherError msg =>
      by_cases hc : a < maxRetries - 1
      · have hk1 : 1 ≤ k := by omega
        have ha1 : (a + 1) + k = maxRetries := by omega
        obtain ⟨ihn, ihok, ihr⟩ := ih (a + 1) ha1 hk1
        refine ⟨?_, ?_, ?_⟩
        · simpa [retryLoop, hEnv, hc] using ihn
        · intro v hv
          simp only [retryLoop, hEnv, if_pos hc] at hv
          obtain ⟨i, hi1, hi2, hi3⟩ := ihok v hv
          exact ⟨i, by omega, hi2, hi3⟩
        · intro e he
          simp only [retryLoop, hEnv, if_pos hc] at he
          obtain ⟨i, hi1, hi2, hi3⟩ := ihr e he
          exact ⟨i, by omega, hi2, hi3⟩
      · refine ⟨by simp [retryLoop, hEnv, hc], ?_, ?_⟩
        · intro v hv
          simp only [retryLoop, hEnv, if_neg hc] at hv
          exact FetchResult.noConfusion hv
        · intro e he
          simp only [retryLoop, hEnv, if_neg hc] at he
          injection he with he
          exact ⟨a, le_refl a, by omega, Or.inr ⟨msg, hEnv, he.symm⟩⟩

/-! The claims. -/

/-- C1: if the primary path raises (on every retry of the primary fetch, or
anywhere in extraction, price lookup or computation), the fallback path
alone determines the response: a fallback success is served as a 200 record
whose source field is the fallback tag, and a fallback failure is served as
the 500 error response.  There is no path back to the primary. -/
theorem primary_failure_runs_fallback (w : World) (e : PyExc)
    (hp : primaryMetrics w = .error e) :
    (∀ m, fetch_blockchain_fallback w = .ok m →
        do_GET w = ⟨200, headers200, .metrics m⟩ ∧ m.source = "blockchain-fallback") ∧
    (∀ e2, fetch_blockchain_fallback w = .error e2 → do_GET w = errorResponse e2) := by
  constructor
  · intro m hm
    have hi : innerMetrics w = .ok m := by
      rw [innerMetrics_of_primary_error hp, hm]
    refine ⟨do_GET_of_ok hi, ?_⟩
    obtain ⟨q, p, b, _, _, _, _, _, _, rfl⟩ := fallback_ok hm
    rfl
  · intro e2 he2
    exact do_GET_of_error (by rw [innerMetrics_of_primary_error hp, he2])

/-- C1 witness: in `wFallback` the primary fetch times out on all attempts
and the fallback record is served with the fallback source tag. -/
theorem primary_failure_runs_fallback_witness :
    do_GET wFallback = ⟨200, headers200, .metrics mFallback⟩ ∧
    mFallback.source = "blockchain-fallback" :=
  (primary_failure_runs_fallback wFallback (.exception "timed out")
    (by with_unfolding_all rfl)).1 mFallback (by with_unfolding_all rfl)

/-- C2: when the fallback cannot produce a record — every RPC endpoint
failed to return a supply value, or a price lookup yields only falsy
values — the request fails as a whole: HTTP 500 whose body is the error
object with the exception message, the fixed message string and the fixed
suggestion string, never a partial metrics record. -/
theorem fallback_exhaustion_yields_500 (w : World) (e0 : PyExc)
    (hp : primaryMetrics w = .error e0)
    (hfail : fetch_token_supply w = none
      ∨ ∃ q, fetch_token_supply w = some q ∧ q ≠ 0 ∧
          ((∀ p, fetch_sol_price (w.solPrice 1) = .ok p → p.falsy = true)
           ∨ (∀ p, fetch_xsol_price w.xsolPrice = .ok p → p.falsy = true))) :
    ∃ e : PyExc, do_GET w =
      ⟨500, headers500,
       .err ⟨e.toStr, "Failed to fetch xSOL metrics",
             "Try again later or use cached Gist data"⟩⟩ := by
  have hferr : ∃ e, fetch_blockchain_fallback w = .error e := by
    rcases hfail with h | ⟨q, hs, hq, hf⟩
    · exact ⟨_, fallback_supply_fail (Or.inl h)⟩
    · exact fallback_price_fail hs hq hf
  obtain ⟨e, he⟩ := hferr
  exact ⟨e, do_GET_of_error (by rw [innerMetrics_of_primary_error hp, he])⟩

/-- C2 witness: in `wAllFail` the primary fetch times out and every RPC
endpoint fails, so the handler serves the 500 error body. -/
theorem fallback_exhaustion_yields_500_witness :
    ∃ e : PyExc, do_GET wAllFail =
      ⟨500, headers500,
       .err ⟨e.toStr, "Failed to fetch xSOL metrics",
             "Try again later or use cached Gist data"⟩⟩ :=
  fallback_exhaustion_yields_500 wAllFail (.exception "timed out")
    (by with_unfolding_all rfl) (Or.inl (by with_unfolding_all rfl))

/-- C3 counterexample: the claim says every non-429 failure is retried
after a 1-second wait, up to 3 attempts.  But an `HTTPError` with a non-429
status (here 500) is re-raised at once: one attempt, no wait, and the
exception propagates to the caller immediately. -/
theorem non429_http_error_not_retried :
    (fetch_with_retry (fun _ => .httpError 500 "HTTP Error 500: Internal Server Error")
      (fun _ => 0) 3).attempts = 1 ∧
    (fetch_with_retry (fun _ => .httpError 500 "HTTP Error 500: Internal Server Error")
      (fun _ => 0) 3).waits = [] ∧
    (fetch_with_retry (fun _ => .httpError 500 "HTTP Error 500: Internal Server Error")
      (fun _ => 0) 3).result
      = .raised (.httpError 500 "HTTP Error 500: Internal Server Error") :=
  ⟨rfl, rfl, rfl⟩

/-- C3 as amended: a failed attempt whose failure is an exception other
than an `HTTPError` (network error, timeout, malformed body) is retried
after a fixed 1-second wait, up to 3 attempts per call, and only after the
third such failure does the exception propagate; a success on the second
attempt is served after a single 1-second wait.  (An `HTTPError` with a
non-429 status propagates immediately, per the counterexample.) -/
theorem transient_retry_policy
    (env env2 : Nat → AttemptOutcome) (j j2 : Nat → ℚ) (m0 m1 m2 m : String) (v : JValue)
    (h0 : env 0 = .otherError m0) (h1 : env 1 = .otherError m1)
    (h2 : env 2 = .otherError m2)
    (g0 : env2 0 = .otherError m) (g1 : env2 1 = .success v) :
    fetch_with_retry env j 3 = ⟨.raised (.exception m2), [1, 1], 3⟩ ∧
    fetch_with_retry env2 j2 3 = ⟨.ok v, [1], 2⟩ := by
  constructor
  · show retryLoop env j 3 (List.range 3) = _
    rw [show List.range 3 = [0, 1, 2] from rfl]
    simp [retryLoop, h0, h1, h2]
  · show retryLoop env2 j2 3 (List.range 3) = _
    rw [show List.range 3 = [0, 1, 2] from rfl]
    simp [retryLoop, g0, g1]

/-- C3 witness: a call failing three times with a network error runs 3
attempts with two 1-second waits and raises the final error; a call failing
once then succeeding runs 2 attempts with one 1-second wait. -/
theorem transient_retry_policy_witness :
    fetch_with_retry (fun _ => .otherError "boom") (fun _ => 0) 3
      = ⟨.raised (.exception "boom"), [1, 1], 3⟩ ∧
    fetch_with_retry (fun i => if i = 0 then .otherError "boom" else .success .null)
      (fun _ => 0) 3 = ⟨.ok .null, [1], 2⟩ :=
  transient_retry_policy _ _ _ _ "boom" "boom" "boom" "boom" .null
    rfl rfl rfl rfl rfl

/-- C4: every record either path returns satisfies
collateral TVL = stable supply + lever price * lever supply, with the
fallback applying the same additive formula to the fixed approximate
stable supply 18000000. -/
theorem collateral_tvl_additive (w : World) :
    (∀ m, primaryMetrics w = .ok m →
      ∃ s p q : ℚ, m.HYusd_supply = .num s ∧ m.xSOL_price = .num p ∧
        m.xSOL_supply = .num q ∧ m.Collateral_TVL = .num (s + p * q)) ∧
    (∀ m, fetch_blockchain_fallback w = .ok m →
      ∃ p q : ℚ, m.HYusd_supply = .num 18000000 ∧ m.xSOL_price = .num p ∧
        m.xSOL_supply = .num q ∧ m.Collateral_TVL = .num (18000000 + p * q)) := by
  constructor
  · intro m hm
    obtain ⟨hv, stats, cr, sm, s, p, q, b, _, _, _, _, _, _, _, _, _, _, rfl⟩ :=
      primaryMetrics_ok hm
    exact ⟨s, p, q, rfl, rfl, rfl, rfl⟩
  · intro m hm
    obtain ⟨q, p, b, _, _, _, _, _, _, rfl⟩ := fallback_ok hm
    exact ⟨p, q, rfl, rfl, rfl, rfl⟩

/-- C4 witness: the additive formula instantiated on the records produced
in `wPrimary` and `wFallback`. -/
theorem collateral_tvl_additive_witness :
    (∃ s p q : ℚ, mPrimary.HYusd_supply = .num s ∧ mPrimary.xSOL_price = .num p ∧
      mPrimary.xSOL_supply = .num q ∧ mPrimary.Collateral_TVL = .num (s + p * q)) ∧
    (∃ p q : ℚ, mFallback.HYusd_supply = .num 18000000 ∧ mFallback.xSOL_price = .num p ∧
      mFallback.xSOL_supply = .num q ∧ mFallback.Collateral_TVL = .num (18000000 + p * q)) :=
  ⟨(collateral_tvl_additive wPrimary).1 mPrimary (by with_unfolding_all rfl),
   (collateral_tvl_additive wFallback).2 mFallback (by with_unfolding_all rfl)⟩

/-- C5: every record either path returns satisfies
effective leverage = collateral TVL / (lever price * lever supply) and
collateral TVL in base units = collateral TVL / base price. -/
theorem leverage_and_base_tvl_formulas (w : World) :
    (∀ m, primaryMetrics w = .ok m →
      ∃ t p q b : ℚ, m.Collateral_TVL = .num t ∧ m.xSOL_price = .num p ∧
        m.xSOL_supply = .num q ∧ m.SOL_price = .num b ∧
        m.Effective_Leverage = .num (t / (p * q)) ∧
        m.Collateral_TVL_SOL = .num (t / b)) ∧
    (∀ m, fetch_blockchain_fallback w = .ok m →
      ∃ t p q b : ℚ, m.Collateral_TVL = .num t ∧ m.xSOL_price = .num p ∧
        m.xSOL_supply = .num q ∧ m.SOL_price = .num b ∧
        m.Effective_Leverage = .num (t / (p * q)) ∧
        m.Collateral_TVL_SOL = .num (t / b)) := by
  constructor
  · intro m hm
    obtain ⟨hv, stats, cr, sm, s, p, q, b, _, _, _, _, _, _, _, _, _, _, rfl⟩ :=
      primaryMetrics_ok hm
    exact ⟨s + p * q, p, q, b, rfl, rfl, rfl, rfl, rfl, rfl⟩
  · intro m hm
    obtain ⟨q, p, b, _, _, _, _, _, _, rfl⟩ := fallback_ok hm
    exact ⟨18000000 + p * q, p, q, b, rfl, rfl, rfl, rfl, rfl, rfl⟩

/-- C5 witness: the two division formulas instantiated on the primary
record produced in `wPrimary`. -/
theorem leverage_and_base_tvl_formulas_witness :
    ∃ t p q b : ℚ, mPrimary.Collateral_TVL = .num t ∧ mPrimary.xSOL_price = .num p ∧
      mPrimary.xSOL_supply = .num q ∧ mPrimary.SOL_price = .num b ∧
      mPrimary.Effective_Leverage = .num (t / (p * q)) ∧
      mPrimary.Collateral_TVL_SOL = .num (t / b) :=
  (leverage_and_base_tvl_formulas wPrimary).1 mPrimary (by with_unfolding_all rfl)

/-- C6 counterexample: the claim says a successful primary record always
has a non-null ratio.  In `wNullRatio` the primary API answers with
`collateralRatio: null`; the primary path succeeds, and the served 200
record carries a null `CollateralRatio` with the primary source tag. -/
theorem primary_null_ratio_record :
    primaryMetrics wNullRatio = .ok mNullRatio ∧
    mNullRatio.CollateralRatio = .null ∧
    mNullRatio.source = "hylo-api" ∧
    do_GET wNullRatio = ⟨200, headers200, .metrics mNullRatio⟩ :=
  ⟨by with_unfolding_all rfl, rfl, rfl, by with_unfolding_all rfl⟩

/-- C6 as amended: a successful primary record carries no note and its
`CollateralRatio` is exactly the value the upstream `exchangeStats`
supplied (hence non-null whenever the upstream value is non-null); a
fallback record always has a null ratio and the fixed note. -/
theorem ratio_and_note_by_source (w : World) :
    (∀ m, primaryMetrics w = .ok m → m.note = none ∧
      ∀ hv stats r, fetch_hylo_api w = .ok hv →
        pyIndex hv "exchangeStats" = .ok stats →
        pyIndex stats "collateralRatio" = .ok r → m.CollateralRatio = r) ∧
    (∀ m, fetch_blockchain_fallback w = .ok m →
      m.CollateralRatio = .null ∧
      m.note = some "CollateralRatio unavailable - using blockchain approximation") := by
  constructor
  · intro m hm
    obtain ⟨hv, stats, cr, sm, s, p, q, b, hHylo, hStats, _, _, _, hCr, _, _, _, _, rfl⟩ :=
      primaryMetrics_ok hm
    refine ⟨rfl, ?_⟩
    intro hv2 stats2 r2 hHylo2 hStats2 hCr2
    rw [hHylo] at hHylo2
    injection hHylo2 with hhv
    subst hhv
    rw [hStats] at hStats2
    injection hStats2 with hst
    subst hst
    rw [hCr] at hCr2
    injection hCr2
  · intro m hm
    obtain ⟨q, p, b, _, _, _, _, _, _, rfl⟩ := fallback_ok hm
    exact ⟨rfl, rfl⟩

/-- C6 witness: in `wPrimary` the primary record keeps the upstream ratio
1.2 and has no note; in `wFallback` the record has a null ratio and the
fixed note. -/
theorem ratio_and_note_by_source_witness :
    (mPrimary.note = none ∧ mPrimary.CollateralRatio = .num (6/5)) ∧
    (mFallback.CollateralRatio = .null ∧
     mFallback.note = some "CollateralRatio unavailable - using blockchain approximation") :=
  ⟨⟨((ratio_and_note_by_source wPrimary).1 mPrimary (by with_unfolding_all rfl)).1,
    ((ratio_and_note_by_source wPrimary).1 mPrimary (by with_unfolding_all rfl)).2
      hyloOk statsOk (.num (6/5)) (by with_unfolding_all rfl) rfl rfl⟩,
   (ratio_and_note_by_source wFallback).2 mFallback (by with_unfolding_all rfl)⟩

/-- C7: a 429 on the first attempt followed by success yields exactly 2
attempts, and the single wait before the second attempt is 2 ^ 0 seconds
plus the drawn jitter, hence at least 1 second when the jitter is
nonnegative (the jitter is a `random.uniform(0, 1)` draw). -/
theorem rate_limit_backoff_two_attempts (env : Nat → AttemptOutcome) (j : Nat → ℚ)
    (msg : String) (v : JValue)
    (h0 : env 0 = .httpError 429 msg) (h1 : env 1 = .success v)
    (hj0 : 0 ≤ j 0) (_hjlt : j 0 < 1) :
    fetch_with_retry env j 3 = ⟨.ok v, [2 ^ 0 + j 0], 2⟩ ∧
    (1 : ℚ) ≤ 2 ^ 0 + j 0 := by
  constructor
  · show retryLoop env j 3 (List.range 3) = _
    rw [show List.range 3 = [0, 1, 2] from rfl]
    simp [retryLoop, h0, h1]
  · have h : (2 : ℚ) ^ 0 = 1 := by norm_num
    rw [h]
    linarith

/-- C7 witness: the 429-then-success schedule with zero jitter. -/
theorem rate_limit_backoff_two_attempts_witness :
    fetch_with_retry
        (fun i => if i = 0 then .httpError 429 "HTTP Error 429: Too Many Requests"
                  else .success .null) (fun _ => 0) 3
      = ⟨.ok .null, [2 ^ 0 + 0], 2⟩ ∧
    (1 : ℚ) ≤ 2 ^ 0 + 0 :=
  rate_limit_backoff_two_attempts _ _ "HTTP Error 429: Too Many Requests" .null
    rfl rfl (le_refl 0) (by norm_num)

/-- C8: every fallback record carries the fixed approximation constant
18000000 as its stable supply — never a retrieved figure — and its
collateral TVL is computed from that constant. -/
theorem fallback_stable_supply_constant (w : World) :
    ∀ m, fetch_blockchain_fallback w = .ok m →
      m.HYusd_supply = .num 18000000 ∧
      ∀ p q : ℚ, m.xSOL_price = .num p → m.xSOL_supply = .num q →
        m.Collateral_TVL = .num (18000000 + p * q) := by
  intro m hm
  obtain ⟨q, p, b, _, _, _, _, _, _, rfl⟩ := fallback_ok hm
  refine ⟨rfl, ?_⟩
  intro p2 q2 hp2 hq2
  obtain rfl : p = p2 := by injection hp2
  obtain rfl : q = q2 := by injection hq2
  rfl

/-- C8 witness: the spec scenario — on-chain supply 1000000 at lever price
1.5 under fallback gives collateral TVL 18000000 + 1500000 = 19500000. -/
theorem fallback_stable_supply_constant_witness :
    mFallback.HYusd_supply = .num 18000000 ∧
    mFallback.Collateral_TVL = .num 19500000 := by
  have h := fallback_stable_supply_constant wFallback mFallback (by with_unfolding_all rfl)
  refine ⟨h.1, ?_⟩
  have h2 := h.2 (3/2) 1000000 rfl rfl
  rw [h2]
  norm_num

/-- C9: a supply query that succeeds but reports exactly 0 is treated as a
failure by the fallback (the falsy check), raising the supply exception and
producing a 500 when the primary already failed; the same falsy check
guards both price lookups. -/
theorem zero_supply_treated_as_failure (w : World) :
    (fetch_token_supply w = some 0 →
      fetch_blockchain_fallback w
        = .error (.exception "Failed to fetch xSOL supply from blockchain")) ∧
    (∀ e0, primaryMetrics w = .error e0 → fetch_token_supply w = some 0 →
      (do_GET w).status = 500) ∧
    (∀ q, fetch_token_supply w = some q → q ≠ 0 →
      (∀ p, fetch_sol_price (w.solPrice 1) = .ok p → p.falsy = true) →
      ∃ e, fetch_blockchain_fallback w = .error e) ∧
    (∀ q, fetch_token_supply w = some q → q ≠ 0 →
      (∀ p, fetch_xsol_price w.xsolPrice = .ok p → p.falsy = true) →
      ∃ e, fetch_blockchain_fallback w = .error e) := by
  refine ⟨fun h => fallback_supply_fail (Or.inr h), ?_, ?_, ?_⟩
  · intro e0 hp hs
    have he := fallback_supply_fail (w := w) (Or.inr hs)
    rw [do_GET_of_error (by rw [innerMetrics_of_primary_error hp, he])]
    rfl
  · intro q hs hq hf
    exact fallback_price_fail hs hq (Or.inl hf)
  · intro q hs hq hf
    exact fallback_price_fail hs hq (Or.inr hf)

/-- C9 witness: in `wZeroSupply` the first RPC endpoint answers with
`uiAmount` 0; the fallback raises the supply exception and the request ends
in a 500. -/
theorem zero_supply_treated_as_failure_witness :
    fetch_blockchain_fallback wZeroSupply
      = .error (.exception "Failed to fetch xSOL supply from blockchain") ∧
    (do_GET wZeroSupply).status = 500 :=
  ⟨(zero_supply_treated_as_failure wZeroSupply).1 (by with_unfolding_all rfl),
   (zero_supply_treated_as_failure wZeroSupply).2.1 (.exception "timed out")
     (by with_unfolding_all rfl) (by with_unfolding_all rfl)⟩

/-- C10 counterexample: the claim says `fetch_with_retry` never returns
`None` for every input.  With `max_retries = 0` the loop body never runs
and the trailing return of `None` executes — even when every attempt would
have succeeded. -/
theorem fetch_with_retry_zero_budget_none :
    (fetch_with_retry (fun _ => .success .null) (fun _ => 0) 0).result
      = .noneReturn := rfl

/-- C10 as amended: whenever `max_retries` is at least 1 — in particular at
the default 3 used by every call site — `fetch_with_retry` never takes the
trailing return-None branch: it returns the decoded JSON of some successful
attempt or raises an exception originating in some attempt's failure. -/
theorem fetch_with_retry_never_none (env : Nat → AttemptOutcome) (j : Nat → ℚ)
    (n : Nat) (hn : 1 ≤ n) :
    ((fetch_with_retry env j n).result ≠ .noneReturn) ∧
    (∀ v, (fetch_with_retry env j n).result = .ok v →
      ∃ i, i < n ∧ env i = .success v) ∧
    (∀ e, (fetch_with_retry env j n).result = .raised e →
      ∃ i, i < n ∧
        ((∃ c msg, env i = .httpError c msg ∧ e = .httpError c msg) ∨
         (∃ msg, env i = .otherError msg ∧ e = .exception msg))) := by
  have h := retryLoop_range'_no_none env j n n 0 (by omega) hn
  rw [show List.range' 0 n = List.range n from (List.range_eq_range' n).symm] at h
  obtain ⟨h1, h2, h3⟩ := h
  refine ⟨h1, fun v hv => ?_, fun e he => ?_⟩
  · obtain ⟨i, _, hi, hiv⟩ := h2 v hv
    exact ⟨i, hi, hiv⟩
  · obtain ⟨i, _, hi, hie⟩ := h3 e he
    exact ⟨i, hi, hie⟩

/-- C10 witness: with the default budget of 3 the None branch is
unreachable even when every attempt fails. -/
theorem fetch_with_retry_never_none_witness :
    (fetch_with_retry (fun _ => .otherError "boom") (fun _ => 0) 3).result
      ≠ .noneReturn :=
  (fetch_with_retry_never_none (fun _ => .otherError "boom") (fun _ => 0) 3
    (by norm_num)).1
